import Mathlib

/-!
Verification of the workflow-state / quality-gate subsystem of the
`opencode-sdlc` repository.

The definitions below are a shallow embedding of:
  * `src/lib/workflow-state.ts`  (phase state tracker, transition logger,
    workflow report generator),
  * `src/plugin/quality-gate.ts` (gate evaluation recipes, gate-check logger,
    quality report generator, `tool.execute.before` hook),
  * the `track-phase` tool (`tool/track-phase.ts`).

Modelling conventions:
  * timestamps are integers (milliseconds); the ISO-8601 string rendering of
    `new Date().toISOString()` is not modelled, only the instant `now`;
  * `appendFileSync` / shell probes are effectful, so each effect's outcome is
    an explicit parameter: an append outcome is `Option String` (`none` =
    success, `some e` = the write threw with stringified error `e`), and each
    shell probe is `Except String τ` (`.error e` = the Bun `$` call threw,
    `.ok v` = it completed and produced `v`);
  * TypeScript `string | null` becomes `Option String` (null = `none`);
  * a JSONL file on disk is `Option (List (LogLine α))`: `none` = the file
    does not exist, `some lines` = the list of lines obtained from
    `readFileSync(..).trim().split("\n")`, each line either parsing as a
    record (`LogLine.valid`) or making `JSON.parse` throw (`LogLine.malformed`).
-/

namespace OpencodeSdlc

/-- Decidable equality for `Except`, needed to derive it for the probe
environment below. -/
instance {ε α : Type} [DecidableEq ε] [DecidableEq α] : DecidableEq (Except ε α) := by
  intro a b
  cases a <;> cases b
  case error.error x y =>
    exact if h : x = y then .isTrue (by rw [h]) else .isFalse (by simp [h])
  case error.ok x y => exact .isFalse (by simp)
  case ok.error x y => exact .isFalse (by simp)
  case ok.ok x y =>
    exact if h : x = y then .isTrue (by rw [h]) else .isFalse (by simp [h])

/-- One line of a JSONL log file, as seen by `JSON.parse`: either a
well-formed record of type `α`, or a malformed line on which `JSON.parse`
throws. -/
inductive LogLine (α : Type) where
  | valid (record : α)
  | malformed
deriving DecidableEq, Repr

/-- `lines.map((line) => JSON.parse(line))`: JavaScript `Array.map` applies
`JSON.parse` to every line and the first malformed line makes the whole
expression throw. -/
def parseLines {α : Type} : List (LogLine α) → Except Unit (List α)
  | [] => .ok []
  | .valid r :: rest => (parseLines rest).map (fun l => r :: l)
  | .malformed :: _ => .error ()

/-- `WorkflowTransition` (src/lib/workflow-state.ts:15-21).  The TS field
`from` is spelled `fromPhase` and `to` is spelled `toPhase` because `from`
is reserved in Lean. -/
structure WorkflowTransition where
  timestamp : Int
  fromPhase : Option String
  toPhase : String
  duration : Int
  filesModified : List String
deriving DecidableEq, Repr

/-- The module-level mutable state of src/lib/workflow-state.ts
(`currentPhase`, `phaseStartTime`, `filesModified`) together with the
contents of `transitions.jsonl`, which `logTransition` appends to.
`filesModified` is a `Set<string>`; it is modelled as an insertion-ordered
duplicate-free list. -/
structure WorkflowState where
  currentPhase : Option String
  phaseStartTime : Option Int
  filesModified : List String
  transitionsLog : List WorkflowTransition
deriving DecidableEq, Repr

/-- The initial module state: `let currentPhase: string | null = null;
let phaseStartTime: Date | null = null; const filesModified = new Set()`. -/
def initialWorkflowState : WorkflowState :=
  { currentPhase := none, phaseStartTime := none, filesModified := [], transitionsLog := [] }

/-- `getCurrentPhase` (src/lib/workflow-state.ts:91-93). -/
def getCurrentPhase (st : WorkflowState) : Option String :=
  st.currentPhase

/-- `setCurrentPhase` (src/lib/workflow-state.ts:95-98): records the phase and
resets the phase-start timestamp to now. -/
def setCurrentPhase (now : Int) (st : WorkflowState) (phase : String) : WorkflowState :=
  { st with currentPhase := some phase, phaseStartTime := some now }

/-- `getFilesModified` (src/lib/workflow-state.ts:100-102). -/
def getFilesModified (st : WorkflowState) : List String :=
  st.filesModified

/-- `addModifiedFile` (src/lib/workflow-state.ts:104-106): `Set.add`, a no-op
on duplicates. -/
def addModifiedFile (st : WorkflowState) (filePath : String) : WorkflowState :=
  if filePath ∈ st.filesModified then st
  else { st with filesModified := st.filesModified ++ [filePath] }

/-- `clearModifiedFiles` (src/lib/workflow-state.ts:108-110). -/
def clearModifiedFiles (st : WorkflowState) : WorkflowState :=
  { st with filesModified := [] }

/-- `logTransition` (src/lib/workflow-state.ts:37-55): builds the record with
`duration = phaseStartTime ? Date.now() - phaseStartTime.getTime() : 0` and
appends it with `appendFileSync`.  There is no try/catch, so a failing append
(`appendErr = some e`) propagates to the caller. -/
def logTransition (appendErr : Option String) (now : Int) (st : WorkflowState)
    (fromP : Option String) (toP : String) (files : List String) :
    Except String (List WorkflowTransition) :=
  match appendErr with
  | some e => .error e
  | none =>
      .ok (st.transitionsLog ++
        [{ timestamp := now
           fromPhase := fromP
           toPhase := toP
           duration := match st.phaseStartTime with
             | some t0 => now - t0
             | none => 0
           filesModified := files }])

/-- `WorkflowReport` (src/lib/workflow-state.ts:23-27).  The JS object
`phases: Record<string, {count, totalDuration}>` is an insertion-ordered map
with unique keys, modelled as an association list `phase ↦ (count,
totalDuration)`; `filesChanged: Set<string>` is an insertion-ordered
duplicate-free list. -/
structure WorkflowReport where
  totalTransitions : Nat
  phases : List (String × Nat × Int)
  filesChanged : List String
deriving DecidableEq, Repr

/-- `report.phases[t.to]` update: bump `count` and add the duration at key
`to`, inserting the key if absent (JS object indexing). -/
def bumpPhase : List (String × Nat × Int) → String → Int → List (String × Nat × Int)
  | [], toP, dur => [(toP, 1, dur)]
  | e :: rest, toP, dur =>
      if e.1 = toP then (e.1, e.2.1 + 1, e.2.2 + dur) :: rest
      else e :: bumpPhase rest toP dur

/-- `Set.add` on the insertion-ordered `filesChanged` list. -/
def addFileChanged (acc : List String) (f : String) : List String :=
  if f ∈ acc then acc else acc ++ [f]

/-- The body of `transitions.forEach((t) => ...)` in `generateReport`
(src/lib/workflow-state.ts:73-82): a truthy `t.to` (non-empty string) bumps
that phase's count and duration; `t.filesModified` is added to the
`filesChanged` set either way. -/
def foldTransition (rep : WorkflowReport) (t : WorkflowTransition) : WorkflowReport :=
  { rep with
    phases := if t.toPhase = "" then rep.phases else bumpPhase rep.phases t.toPhase t.duration
    filesChanged := t.filesModified.foldl addFileChanged rep.filesChanged }

/-- The result of `generateReport`, whose TS type is
`WorkflowReport | string`: either the folded report or the no-data sentinel
string. -/
inductive ReportResult where
  | report (r : WorkflowReport)
  | noData (msg : String)
deriving DecidableEq, Repr

/-- `generateReport` (src/lib/workflow-state.ts:57-89).  A missing log file
returns the sentinel string; otherwise the lines are parsed with
`lines.map(JSON.parse)` — which throws on the first malformed line, and
there is no try/catch, so the throw propagates (`.error ()`) — and folded
into the report.  (The final `writeFileSync` of `report.json` is not
modelled; no claim concerns it.) -/
def generateReport (logFile : Option (List (LogLine WorkflowTransition))) :
    Except Unit ReportResult :=
  match logFile with
  | none => .ok (.noData "No workflow data available yet.")
  | some lines =>
      match parseLines lines with
      | .error _ => .error ()
      | .ok transitions =>
          .ok (.report (transitions.foldl foldTransition
            { totalTransitions := transitions.length, phases := [], filesChanged := [] }))

/-- The `validPhases` list of the `track-phase` tool. -/
def validPhases : List String :=
  ["plan", "design", "implement", "test", "review", "release", "operate"]

/-- JavaScript `String.prototype.toLowerCase()`, modelled as a per-character
lowercase map (the phase names involved are ASCII). -/
def jsToLowerCase (s : String) : String :=
  ⟨s.data.map Char.toLower⟩

/-- JavaScript `String.prototype.trim()`: strip leading and trailing
whitespace. -/
def jsTrim (s : String) : String :=
  ⟨((s.data.dropWhile Char.isWhitespace).reverse.dropWhile Char.isWhitespace).reverse⟩

/-- The outcomes of every external shell probe the four gate recipes run
(src/plugin/quality-gate.ts:63-247).  Each field is one `$`...`` invocation:
`.error e` means the Bun shell call threw (nonzero exit where not guarded, or
the command could not be run at all), `.ok v` means it completed.
  * `findDesignFiles`: the text produced by the `find` for design artifacts;
  * `hasTsconfig`, `hasEslintConfig`, `hasNpmTest`, `hasCoverageFile`,
    `hasChangelog`: the `test -f ... && echo "true" || echo "false"`-style
    probes, `true` iff the trimmed output is the string `"true"`;
  * `tscCompile`, `eslintRun`, `npmTest`: the checked commands, which throw
    on nonzero exit (`.quiet()` only silences output);
  * `coverageRead`: the `cat coverage/coverage-summary.json` + `JSON.parse`
    step; `.ok (some pct)` when `coverage.total?.lines?.pct` is present,
    `.ok none` when the parsed JSON lacks it (the `|| 0` default applies);
  * `npmAudit`: the audit's exit code when the call returns, `.error` when
    it throws. -/
structure GateEnv where
  findDesignFiles : Except String String
  hasTsconfig : Except String Bool
  tscCompile : Except String Unit
  hasEslintConfig : Except String Bool
  eslintRun : Except String Unit
  hasNpmTest : Except String Bool
  npmTest : Except String Unit
  hasCoverageFile : Except String Bool
  coverageRead : Except String (Option Nat)
  npmAudit : Except String Int
  hasChangelog : Except String Bool
deriving DecidableEq, Repr

/-- `GateResult` (src/plugin/quality-gate.ts:19-24). -/
structure GateResult where
  passed : Bool
  message : String
  transition : String
  timestamp : Int
deriving DecidableEq, Repr

/-- `gates["design→implement"]` (src/plugin/quality-gate.ts:64-92). -/
def gateDesignImplement (env : GateEnv) (now : Int) : GateResult :=
  match env.findDesignFiles with
  | .error e =>
      { passed := false
        message := "❌ Error checking design files: " ++ e
        transition := "design→implement", timestamp := now }
  | .ok designFiles =>
      if jsTrim designFiles = "" then
        { passed := false
          message := "❌ No design files found. Create design specifications before implementing."
          transition := "design→implement", timestamp := now }
      else
        { passed := true
          message := "✅ Design files present"
          transition := "design→implement", timestamp := now }

/-- `gates["implement→test"]` (src/plugin/quality-gate.ts:94-141).  The
tsconfig/eslint-config probes sit directly under the outer `try`, so their
throws reach the outer catch; the `tsc`/`eslint` runs have their own inner
catches with fixed messages. -/
def gateImplementTest (env : GateEnv) (now : Int) : GateResult :=
  let lintStep : GateResult :=
    match env.hasEslintConfig with
    | .error e =>
        { passed := false
          message := "❌ Error during implementation validation: " ++ e
          transition := "implement→test", timestamp := now }
    | .ok hasEslint =>
        if hasEslint then
          match env.eslintRun with
          | .error _ =>
              { passed := false
                message := "❌ Linting failed. Fix linting errors before testing."
                transition := "implement→test", timestamp := now }
          | .ok _ =>
              { passed := true
                message := "✅ Code compiles and passes linting"
                transition := "implement→test", timestamp := now }
        else
          { passed := true
            message := "✅ Code compiles and passes linting"
            transition := "implement→test", timestamp := now }
  match env.hasTsconfig with
  | .error e =>
      { passed := false
        message := "❌ Error during implementation validation: " ++ e
        transition := "implement→test", timestamp := now }
  | .ok hasTypeScript =>
      if hasTypeScript then
        match env.tscCompile with
        | .error _ =>
            { passed := false
              message := "❌ TypeScript compilation failed. Fix type errors before testing."
              transition := "implement→test", timestamp := now }
        | .ok _ => lintStep
      else lintStep

/-- `gates["test→review"]` (src/plugin/quality-gate.ts:143-196).  The inner
coverage `try` swallows its error (`// Could not verify coverage - continue`),
so a failing `cat`/`JSON.parse` falls through to the success return. -/
def gateTestReview (env : GateEnv) (coverageThreshold : Nat) (now : Int) : GateResult :=
  let passResult : GateResult :=
    { passed := true
      message := "✅ Tests pass with sufficient coverage"
      transition := "test→review", timestamp := now }
  let coverageStep : GateResult :=
    match env.hasCoverageFile with
    | .error e =>
        { passed := false
          message := "❌ Error during test validation: " ++ e
          transition := "test→review", timestamp := now }
    | .ok hasCoverage =>
        if hasCoverage then
          match env.coverageRead with
          | .error _ => passResult
          | .ok pct =>
              let totalCoverage := pct.getD 0
              if totalCoverage < coverageThreshold then
                { passed := false
                  message := "❌ Coverage is " ++ toString totalCoverage ++
                    "%. Must be >" ++ toString coverageThreshold ++ "% before review."
                  transition := "test→review", timestamp := now }
              else passResult
        else passResult
  match env.hasNpmTest with
  | .error e =>
      { passed := false
        message := "❌ Error during test validation: " ++ e
        transition := "test→review", timestamp := now }
  | .ok hasNpmTest =>
      if hasNpmTest then
        match env.npmTest with
        | .error _ =>
            { passed := false
              message := "❌ Tests failed. Fix failing tests before review."
              transition := "test→review", timestamp := now }
        | .ok _ => coverageStep
      else coverageStep

/-- `gates["review→release"]` (src/plugin/quality-gate.ts:198-246). -/
def gateReviewRelease (env : GateEnv) (now : Int) : GateResult :=
  let changelogStep : GateResult :=
    match env.hasChangelog with
    | .error e =>
        { passed := false
          message := "❌ Error during release validation: " ++ e
          transition := "review→release", timestamp := now }
    | .ok hasChangelog =>
        if hasChangelog then
          { passed := true
            message := "✅ Security clean and documentation updated"
            transition := "review→release", timestamp := now }
        else
          { passed := false
            message := "❌ CHANGELOG.md not found. Update changelog before release."
            transition := "review→release", timestamp := now }
  match env.npmAudit with
  | .error _ =>
      { passed := false
        message := "❌ Security audit failed. Fix vulnerabilities before release."
        transition := "review→release", timestamp := now }
  | .ok exitCode =>
      if exitCode ≠ 0 then
        { passed := false
          message := "❌ Security vulnerabilities found. Run \x27npm audit\x27 to see details."
          transition := "review→release", timestamp := now }
      else changelogStep

/-- `validateGate` (src/plugin/quality-gate.ts:250-262): dispatch on the
transition key; any key without a gate is auto-approved with an
informational message. -/
def validateGate (env : GateEnv) (coverageThreshold : Nat) (now : Int)
    (transition : String) : GateResult :=
  if transition = "design→implement" then gateDesignImplement env now
  else if transition = "implement→test" then gateImplementTest env now
  else if transition = "test→review" then gateTestReview env coverageThreshold now
  else if transition = "review→release" then gateReviewRelease env now
  else
    { passed := true
      message := "ℹ️  No quality gate defined for transition: " ++ transition
      transition := transition, timestamp := now }

/-- `GateLog` (src/plugin/quality-gate.ts:26-33). -/
structure GateLog where
  transition : String
  passed : Bool
  message : String
  timestamp : Int
  mode : String
  blocked : Bool
deriving DecidableEq, Repr

/-- The `GateLog` record built at the `logGateCheck` call site of the
`tool.execute.before` hook (src/plugin/quality-gate.ts:381-388). -/
def mkGateLog (transition : String) (result : GateResult) (strictMode : Bool) : GateLog :=
  { transition := transition
    passed := result.passed
    message := result.message
    timestamp := result.timestamp
    mode := if strictMode then "strict" else "warning"
    blocked := !result.passed && strictMode }

/-- `logGateCheck` (src/plugin/quality-gate.ts:54-60): the append is wrapped
in try/catch; on failure only an error notification is emitted and the
caller continues.  Returns the new file contents and the notifications
emitted — note the return type cannot raise. -/
def logGateCheck (appendErr : Option String) (gateLogFile : List GateLog)
    (log : GateLog) : List GateLog × List String :=
  match appendErr with
  | none => (gateLogFile ++ [log], [])
  | some e => (gateLogFile, ["Failed to log quality gate check: " ++ e])

/-- `QualityReport`: the object built by `generateQualityReport`
(src/plugin/quality-gate.ts:274-282).  `byTransition` and `commonFailures`
are JS objects, modelled as insertion-ordered association lists;
`passRate` is the percentage as a rational (the `toFixed(2)` string
rendering is not modelled). -/
structure QualityReport where
  totalChecks : Nat
  passed : Nat
  failed : Nat
  blocked : Nat
  passRate : ℚ
  byTransition : List (String × Nat × Nat × Nat)
  commonFailures : List (String × Nat)
deriving DecidableEq, Repr

/-- `report.byTransition[log.transition]` update: bump `total` and the
`passed`/`failed` counter, inserting the key if absent. -/
def bumpTransition : List (String × Nat × Nat × Nat) → String → Bool →
    List (String × Nat × Nat × Nat)
  | [], key, pass => [(key, 1, if pass then 1 else 0, if pass then 0 else 1)]
  | e :: rest, key, pass =>
      if e.1 = key then
        (e.1, e.2.1 + 1,
          (if pass then e.2.2.1 + 1 else e.2.2.1),
          (if pass then e.2.2.2 else e.2.2.2 + 1)) :: rest
      else e :: bumpTransition rest key pass

/-- `report.commonFailures[failureType]` update. -/
def bumpFailure : List (String × Nat) → String → List (String × Nat)
  | [], key => [(key, 1)]
  | e :: rest, key =>
      if e.1 = key then (e.1, e.2 + 1) :: rest
      else e :: bumpFailure rest key

/-- `log.message.split(":")[0]`: the leading segment of the message before
its first colon (the whole message when it has no colon). -/
def failureType (message : String) : String :=
  ⟨message.data.takeWhile (fun c => c ≠ ':')⟩

/-- `generateQualityReport` (src/plugin/quality-gate.ts:265-311).  Returns
`none` when the gate log file does not exist; the whole read/parse/fold is
wrapped in try/catch, so a malformed line makes it return `none` (after an
error notification) rather than propagate.  (The `writeFileSync` of
`quality-report.json` is not modelled; no claim concerns it.) -/
def generateQualityReport (gateLogFile : Option (List (LogLine GateLog))) :
    Option QualityReport :=
  match gateLogFile with
  | none => none
  | some lines =>
      match parseLines lines with
      | .error _ => none
      | .ok logs =>
          let passedCount := (logs.filter (fun l => l.passed)).length
          some
            { totalChecks := logs.length
              passed := passedCount
              failed := (logs.filter (fun l => !l.passed)).length
              blocked := (logs.filter (fun l => l.blocked)).length
              passRate := if logs.length > 0 then
                  (passedCount * 100 : ℚ) / (logs.length : ℚ)
                else 0
              byTransition := logs.foldl
                (fun acc l => bumpTransition acc l.transition l.passed) []
              commonFailures := logs.foldl
                (fun acc l => if l.passed then acc
                  else bumpFailure acc (failureType l.message)) [] }

/-- The state the quality-gate plugin and the track-phase tool act on: the
workflow-state module state plus the contents of `quality-gates.jsonl`. -/
structure SystemState where
  workflow : WorkflowState
  gateLogFile : List GateLog
deriving DecidableEq, Repr

/-- The track-phase branch of the plugin's `tool.execute.before` hook
(src/plugin/quality-gate.ts:363-401).  Returns the updated state and
`some err` when the hook threw (strict mode with a failing gate), in which
case the host does not run the tool.  The guard
`if (!currentPhase || !nextPhase) return input` skips the whole gate check
when either string is JS-falsy (null or empty).  Warning-mode and
append-failure notifications are fire-and-forget and are not tracked
here. -/
def qualityGateHook (env : GateEnv) (coverageThreshold : Nat) (strictMode : Bool)
    (gateAppendErr : Option String) (now : Int) (st : SystemState)
    (nextPhase : String) : SystemState × Option String :=
  match getCurrentPhase st.workflow with
  | none => (st, none)
  | some currentPhase =>
      if currentPhase = "" ∨ nextPhase = "" then (st, none)
      else
        let transition := currentPhase ++ "→" ++ nextPhase
        let result := validateGate env coverageThreshold now transition
        let logged := logGateCheck gateAppendErr st.gateLogFile
          (mkGateLog transition result strictMode)
        let st' : SystemState := { st with gateLogFile := logged.1 }
        if !result.passed && strictMode then
          (st', some ("Quality gate failed: " ++ result.message ++
            "\n\nTransition blocked. Fix the issues and try again."))
        else (st', none)

/-- The `track-phase` tool's `execute` (tool/track-phase.ts:24-51).  An
invalid phase name (case-insensitive check against `validPhases`) returns
the rejection string with no state change; otherwise the transition is
logged (append failures propagate out of `logTransition`), the current
phase is set and the modified-files set cleared. -/
def trackPhaseTool (transAppendErr : Option String) (now : Int)
    (st : WorkflowState) (phase : String) :
    Except String (WorkflowState × String) :=
  if validPhases.contains (jsToLowerCase phase) = false then
    .ok (st, "❌ Invalid phase: " ++ phase ++ ". Must be one of: " ++
      String.intercalate ", " validPhases)
  else
    let previousPhase := getCurrentPhase st
    let modifiedFiles := getFilesModified st
    match logTransition transAppendErr now st previousPhase phase modifiedFiles with
    | .error e => .error e
    | .ok newLog =>
        let st1 := { st with transitionsLog := newLog }
        let st2 := setCurrentPhase now st1 phase
        let st3 := clearModifiedFiles st2
        .ok (st3, "✅ Transitioned to " ++ phase ++ " phase" ++
          (match previousPhase with
           | some p => if p = "" then "" else " from " ++ p
           | none => ""))

/-- The outcome of one track-phase request as the caller observes it. -/
inductive RequestOutcome where
  | blocked (err : String)
  | persistenceError (err : String)
  | reply (message : String)
deriving DecidableEq, Repr

/-- One track-phase request end to end, as the host executes it: the
quality-gate plugin's `tool.execute.before` hook runs first; if it throws
the tool never executes (`blocked`); otherwise the tool runs, either
propagating a log-append failure (`persistenceError`) or returning its
confirmation/rejection string (`reply`). -/
def trackPhaseRequest (env : GateEnv) (coverageThreshold : Nat)
    (strictMode : Bool) (gateAppendErr transAppendErr : Option String)
    (now : Int) (st : SystemState) (phase : String) :
    SystemState × RequestOutcome :=
  let hooked := qualityGateHook env coverageThreshold strictMode gateAppendErr now st phase
  match hooked.2 with
  | some err => (hooked.1, .blocked err)
  | none =>
      match trackPhaseTool transAppendErr now hooked.1.workflow phase with
      | .error e => (hooked.1, .persistenceError e)
      | .ok (w, msg) => ({ hooked.1 with workflow := w }, .reply msg)

/-! Concrete fixtures used by the witness and counterexample theorems. -/

/-- A probe environment in which every probe runs: design artifacts exist, no
tsconfig/eslint/test script is configured, no coverage file, the audit exits
zero and a changelog exists. -/
def probeEnvAllOk : GateEnv :=
  { findDesignFiles := .ok "./a.design.md\n"
    hasTsconfig := .ok false
    tscCompile := .ok ()
    hasEslintConfig := .ok false
    eslintRun := .ok ()
    hasNpmTest := .ok false
    npmTest := .ok ()
    hasCoverageFile := .ok false
    coverageRead := .ok none
    npmAudit := .ok 0
    hasChangelog := .ok true }

/-- A system state whose current phase is "design", with empty logs. -/
def designState : SystemState :=
  { workflow := { currentPhase := some "design", phaseStartTime := some 0
                  filesModified := [], transitionsLog := [] }
    gateLogFile := [] }

/-- Specification predicate (not from the source): a JSONL line that parses
as a transition record whose target phase is a non-empty (truthy) string. -/
def validTransitionLine : LogLine WorkflowTransition → Bool
  | .valid t => !(t.toPhase == "")
  | .malformed => false

/-- A concrete transition record. -/
def sampleTransition : WorkflowTransition :=
  { timestamp := 0, fromPhase := none, toPhase := "design", duration := 0
    filesModified := [] }

/-- A second concrete transition record. -/
def sampleTransition2 : WorkflowTransition :=
  { timestamp := 1, fromPhase := some "design", toPhase := "implement"
    duration := 3, filesModified := ["a.ts", "b.ts"] }

/-- The probe environment of spec Scenario C: a coverage file reporting 72%
is present and every other probe runs and succeeds. -/
def coverage72Env : GateEnv :=
  { probeEnvAllOk with hasCoverageFile := .ok true, coverageRead := .ok (some 72) }

/-- A probe environment in which the coverage file exists but reading/parsing
it throws; every other probe runs and succeeds. -/
def coverageErrEnv : GateEnv :=
  { probeEnvAllOk with hasCoverageFile := .ok true, coverageRead := .error "ENOENT" }

/-- A probe environment in which the design-file `find` itself cannot run. -/
def designErrEnv : GateEnv :=
  { probeEnvAllOk with findDesignFiles := .error "spawn find ENOENT" }

/-- A probe environment in which the project has zero matching design files
(the `find` runs and prints nothing). -/
def noDesignFilesEnv : GateEnv :=
  { probeEnvAllOk with findDesignFiles := .ok "" }

/-- A concrete gate-check record. -/
def sampleGateLog : GateLog :=
  { transition := "design→implement", passed := false
    message := "❌ No design files found. Create design specifications before implementing."
    timestamp := 7, mode := "warning", blocked := false }

/-! Helper lemmas shared by the claim theorems. -/

/-- `lines.map(JSON.parse)` throws as soon as the list contains a malformed
line. -/
theorem parseLines_error_of_malformed {α : Type} (lines : List (LogLine α))
    (h : LogLine.malformed ∈ lines) : parseLines lines = .error () := by
  induction lines with
  | nil => cases h
  | cons l rest ih =>
      cases l with
      | malformed => rfl
      | valid r =>
          have hr : LogLine.malformed ∈ rest := by
            rcases List.mem_cons.mp h with h' | h'
            · exact absurd h' (by simp)
            · exact h'
          simp [parseLines, ih hr, Except.map]

/-- When every line parses, `lines.map(JSON.parse)` yields the parsed records
in order. -/
theorem parseLines_ok_of_all_valid {α : Type} (lines : List (LogLine α))
    (h : ∀ l ∈ lines, ∃ r, l = LogLine.valid r) :
    ∃ rs, parseLines lines = .ok rs ∧ rs.length = lines.length ∧
      ∀ r ∈ rs, LogLine.valid r ∈ lines := by
  induction lines with
  | nil => exact ⟨[], rfl, rfl, by intro r hr; cases hr⟩
  | cons l rest ih =>
      obtain ⟨r, rfl⟩ := h l (List.mem_cons_self l rest)
      obtain ⟨rs, hok, hlen, hmem⟩ := ih (fun l hl => h l (List.mem_cons_of_mem _ hl))
      refine ⟨r :: rs, ?_, ?_, ?_⟩
      · simp [parseLines, hok, Except.map]
      · simp [hlen]
      · intro r' hr'
        cases hr' with
        | head => exact List.mem_cons_self _ _
        | tail _ hr' => exact List.mem_cons_of_mem _ (hmem r' hr')

/-- Bumping one phase's counter increases the total count by one. -/
theorem bumpPhase_sum (l : List (String × Nat × Int)) (toP : String) (dur : Int) :
    ((bumpPhase l toP dur).map (fun e => e.2.1)).sum =
      (l.map (fun e => e.2.1)).sum + 1 := by
  induction l with
  | nil => simp [bumpPhase]
  | cons e rest ih =>
      by_cases h : e.1 = toP
      · simp [bumpPhase, h]
        omega
      · simp [bumpPhase, h, ih]
        omega

/-- Folding transitions never touches `totalTransitions`. -/
theorem foldl_totalTransitions (ts : List WorkflowTransition) :
    ∀ rep : WorkflowReport,
      (ts.foldl foldTransition rep).totalTransitions = rep.totalTransitions := by
  induction ts with
  | nil => intro rep; rfl
  | cons t rest ih => intro rep; rw [List.foldl_cons, ih]; rfl

/-- Folding transitions whose target phases are all truthy adds exactly one
phase count per transition. -/
theorem foldl_phase_count_sum (ts : List WorkflowTransition)
    (h : ∀ t ∈ ts, t.toPhase ≠ "") :
    ∀ rep : WorkflowReport,
      ((ts.foldl foldTransition rep).phases.map (fun e => e.2.1)).sum =
        (rep.phases.map (fun e => e.2.1)).sum + ts.length := by
  induction ts with
  | nil => intro rep; simp
  | cons t rest ih =>
      intro rep
      have ht : t.toPhase ≠ "" := h t (List.mem_cons_self t rest)
      rw [List.foldl_cons, ih (fun t' ht' => h t' (List.mem_cons_of_mem _ ht'))]
      simp [foldTransition, ht, bumpPhase_sum]
      omega

/-! C9. -/

/-- C9 — `getPhase` contract: after any sequence of `setPhase` calls (each a
timestamped phase string), `getPhase()` returns the argument of the most
recent call, and on the initial state — `setPhase` never called — it returns
the null sentinel (TS `null`, embedded as `Option.none`).  Both cases are
captured by `getLast?`, which is `none` exactly on the empty call list. -/
theorem getPhase_contract (calls : List (Int × String)) :
    getCurrentPhase
      (calls.foldl (fun st c => setCurrentPhase c.1 st c.2) initialWorkflowState) =
      (calls.map Prod.snd).getLast? := by
  induction calls using List.reverseRecOn with
  | nil => rfl
  | append_singleton cs c _ =>
      rw [List.foldl_append, List.map_append]
      simp [setCurrentPhase, getCurrentPhase]

/-! C8. -/

/-- C8 — invalid phase rejection is atomic: any argument whose lowercasing is
not one of the 7 legal phase names makes the track-phase tool return the
rejection string enumerating the legal names, with the state returned
untouched: nothing appended to the transitions log, current phase and
pending modified-files set unchanged. -/
theorem invalid_phase_rejection (st : WorkflowState) (phase : String)
    (transAppendErr : Option String) (now : Int)
    (h : validPhases.contains (jsToLowerCase phase) = false) :
    trackPhaseTool transAppendErr now st phase =
      .ok (st, "❌ Invalid phase: " ++ phase ++ ". Must be one of: " ++
        String.intercalate ", " validPhases) := by
  unfold trackPhaseTool
  rw [if_pos h]

/-- Witness for C8 at the concrete invalid argument "deploy". -/
theorem invalid_phase_rejection_witness :
    trackPhaseTool none 0 initialWorkflowState "deploy" =
      .ok (initialWorkflowState, "❌ Invalid phase: " ++ "deploy" ++
        ". Must be one of: " ++ String.intercalate ", " validPhases) :=
  invalid_phase_rejection initialWorkflowState "deploy" none 0 (by decide)

/-! C5. -/

/-- C5 — GateCheckLog record invariant and mode-independence: the hook either
leaves `quality-gates.jsonl` alone or appends exactly one record, and any
appended record satisfies `blocked = true` iff `passed = false` and
`mode = "strict"`; moreover, for fixed probe results the records built under
strict and under warning mode carry the same `passed` value (gate evaluation
never reads the mode). -/
theorem gatelog_blocked_invariant (env : GateEnv) (T : Nat) (strict : Bool)
    (gateAppendErr : Option String) (now : Int) (st : SystemState)
    (nextPhase : String) :
    ((qualityGateHook env T strict gateAppendErr now st nextPhase).1.gateLogFile =
        st.gateLogFile ∨
      ∃ l, (qualityGateHook env T strict gateAppendErr now st nextPhase).1.gateLogFile =
          st.gateLogFile ++ [l] ∧
        (l.blocked = true ↔ (l.passed = false ∧ l.mode = "strict"))) ∧
    ∀ tr, (mkGateLog tr (validateGate env T now tr) true).passed =
        (mkGateLog tr (validateGate env T now tr) false).passed := by
  constructor
  · unfold qualityGateHook
    cases hcp : getCurrentPhase st.workflow with
    | none => left; rfl
    | some cp =>
        simp only []
        by_cases hguard : cp = "" ∨ nextPhase = ""
        · rw [if_pos hguard]; left; rfl
        · rw [if_neg hguard]
          cases gateAppendErr with
          | some e =>
              left
              simp only [logGateCheck]
              split <;> rfl
          | none =>
              right
              refine ⟨mkGateLog (cp ++ "→" ++ nextPhase)
                (validateGate env T now (cp ++ "→" ++ nextPhase)) strict, ?_, ?_⟩
              · simp only [logGateCheck]
                split <;> rfl
              · cases hp : (validateGate env T now (cp ++ "→" ++ nextPhase)).passed <;>
                  cases strict <;>
                  simp [mkGateLog, hp]
  · intro tr
    rfl

/-! C7. -/

/-- C7 — report fold round-trip: for every transitions log of N valid lines,
each with a non-empty target phase, `generateReport` yields a report with
`totalTransitions = N` and the per-phase counts summing to N. -/
theorem report_roundtrip (lines : List (LogLine WorkflowTransition))
    (h : lines.all validTransitionLine = true) :
    ∃ rep : WorkflowReport,
      generateReport (some lines) = .ok (.report rep) ∧
      rep.totalTransitions = lines.length ∧
      (rep.phases.map (fun e => e.2.1)).sum = lines.length := by
  have hall : ∀ l ∈ lines, ∃ r, l = LogLine.valid r := by
    intro l hl
    have := (List.all_eq_true.mp h) l hl
    cases l with
    | valid t => exact ⟨t, rfl⟩
    | malformed => simp [validTransitionLine] at this
  obtain ⟨ts, hok, hlen, hmem⟩ := parseLines_ok_of_all_valid lines hall
  have hto : ∀ t ∈ ts, t.toPhase ≠ "" := by
    intro t ht
    have hv := (List.all_eq_true.mp h) _ (hmem t ht)
    simpa [validTransitionLine] using hv
  refine ⟨ts.foldl foldTransition
    { totalTransitions := ts.length, phases := [], filesChanged := [] }, ?_, ?_, ?_⟩
  · simp [generateReport, hok]
  · rw [foldl_totalTransitions, hlen]
  · rw [foldl_phase_count_sum ts hto, hlen]
    simp

/-- Witness for C7 on a concrete two-line log. -/
theorem report_roundtrip_witness :
    ([LogLine.valid sampleTransition, LogLine.valid sampleTransition2].all
        validTransitionLine = true) ∧
    ∃ rep : WorkflowReport,
      generateReport
          (some [LogLine.valid sampleTransition, LogLine.valid sampleTransition2]) =
        .ok (.report rep) ∧
      rep.totalTransitions =
        [LogLine.valid sampleTransition, LogLine.valid sampleTransition2].length ∧
      (rep.phases.map (fun e => e.2.1)).sum =
        [LogLine.valid sampleTransition, LogLine.valid sampleTransition2].length :=
  ⟨by decide, report_roundtrip
    [LogLine.valid sampleTransition, LogLine.valid sampleTransition2] (by decide)⟩

/-! C6. -/

/-- C6 — coverage threshold for the test→review gate: when the test-suite
step succeeds or is not configured, a present coverage file reporting
percentage c against threshold T fails the gate exactly when c < T (so
c = T passes), and absence of a coverage file passes. -/
theorem coverage_threshold (env : GateEnv) (T c : Nat) (now : Int)
    (htest : env.hasNpmTest = .ok false ∨
      (env.hasNpmTest = .ok true ∧ env.npmTest = .ok ())) :
    (env.hasCoverageFile = .ok true → env.coverageRead = .ok (some c) →
      ((gateTestReview env T now).passed = false ↔ c < T)) ∧
    (env.hasCoverageFile = .ok false → (gateTestReview env T now).passed = true) := by
  constructor
  · intro hcov hread
    unfold gateTestReview
    rcases htest with htest | ⟨htest, hrun⟩
    · by_cases hc : c < T <;> simp [htest, hcov, hread, hc]
    · by_cases hc : c < T <;> simp [htest, hrun, hcov, hread, hc]
  · intro hcov
    unfold gateTestReview
    rcases htest with htest | ⟨htest, hrun⟩
    · simp [htest, hcov]
    · simp [htest, hrun, hcov]

/-- Witness for C6: coverage 72 against threshold 80 fails the gate. -/
theorem coverage_threshold_witness :
    coverage72Env.hasNpmTest = .ok false ∧
    ((gateTestReview coverage72Env 80 0).passed = false ↔ 72 < 80) :=
  ⟨rfl, (coverage_threshold coverage72Env 80 72 0 (Or.inl rfl)).1 rfl rfl⟩

/-! C4. -/

/-- C4 is refuted at this input: appending the gate-check record to
`quality-gates.jsonl` fails (stringified error "EACCES"), yet the calling
track-phase request completes with its normal confirmation reply — nothing
is raised to the caller — and `logGateCheck` merely turns the failure into a
notification string. -/
theorem persistence_propagation_counterexample :
    (trackPhaseRequest probeEnvAllOk 80 false (some "EACCES") none 7
        designState "implement").2 =
      .reply "✅ Transitioned to implement phase from design" ∧
    logGateCheck (some "EACCES") [] sampleGateLog =
      ([], ["Failed to log quality gate check: EACCES"]) := by
  constructor
  · rfl
  · rfl

/-- C4 as amended: of the two audit-log appends, only `logTransition`
propagates a write failure to its caller; the gate-check logger
(`logGateCheck`) catches the failure and only emits an error notification,
so the calling operation does not raise. -/
theorem persistence_propagation_amended (e : String) (now : Int)
    (st : WorkflowState) (fromP : Option String) (toP : String)
    (files : List String) (file : List GateLog) (log : GateLog) :
    logTransition (some e) now st fromP toP files = .error e ∧
    logGateCheck (some e) file log =
      (file, ["Failed to log quality gate check: " ++ e]) :=
  ⟨rfl, rfl⟩

/-! C3. -/

/-- C3 is refuted at this input: a transitions log holding one valid and one
malformed line makes `generateReport` abort with the propagated parse error —
it produces no report at all and counts nothing — and a quality-gate log with
a malformed line makes `generateQualityReport` return null instead of
aggregating the valid lines. -/
theorem corrupt_data_counterexample :
    generateReport (some [LogLine.valid sampleTransition, LogLine.malformed]) =
      .error () ∧
    generateQualityReport (some [LogLine.valid sampleGateLog, LogLine.malformed]) =
      none :=
  ⟨rfl, rfl⟩

/-- C3 as amended: report generation is not lenient about corrupt lines —
any malformed line makes `generateReport` throw (aborting report generation
entirely) and makes `generateQualityReport` catch the error and return null;
no skipped-line count exists and no aggregate over the valid lines is
produced. -/
theorem corrupt_data_amended (tl : List (LogLine WorkflowTransition))
    (ql : List (LogLine GateLog))
    (h1 : LogLine.malformed ∈ tl) (h2 : LogLine.malformed ∈ ql) :
    generateReport (some tl) = .error () ∧
    generateQualityReport (some ql) = none := by
  constructor
  · simp [generateReport, parseLines_error_of_malformed tl h1]
  · simp [generateQualityReport, parseLines_error_of_malformed ql h2]

/-- Witness for the amended C3 on concrete mixed logs. -/
theorem corrupt_data_amended_witness :
    LogLine.malformed ∈ [LogLine.valid sampleTransition2, LogLine.malformed] ∧
    (generateReport (some [LogLine.valid sampleTransition2, LogLine.malformed]) =
        .error () ∧
      generateQualityReport (some [LogLine.valid sampleGateLog, LogLine.malformed]) =
        none) :=
  ⟨by decide, corrupt_data_amended _ _ (by decide) (by decide)⟩

/-! C2. -/

/-- C2 is refuted at this input: the coverage file exists but the probe that
reads it cannot run (`cat`/`JSON.parse` throws "ENOENT"), and the test→review
gate evaluation nevertheless returns `passed: true` — the evaluator fails
open, not closed, on this step. -/
theorem fail_closed_counterexample :
    coverageErrEnv.hasCoverageFile = .ok true ∧
    coverageErrEnv.coverageRead = .error "ENOENT" ∧
    (gateTestReview coverageErrEnv 80 0).passed = true :=
  ⟨rfl, rfl, rfl⟩

/-- C2 as amended: every probe step that cannot run makes its gate return
`passed: false` — *except* the coverage-verification step of test→review: a
failing coverage read/parse is silently ignored and evaluation proceeds
exactly as if no coverage file were present.  (Optional steps conditioned on
project configuration are skipped, not failed, as before.) -/
theorem fail_closed_amended (env : GateEnv) (e : String) (T : Nat) (now : Int) :
    (env.findDesignFiles = .error e →
      (gateDesignImplement env now).passed = false) ∧
    (env.hasTsconfig = .error e →
      (gateImplementTest env now).passed = false) ∧
    (env.hasTsconfig = .ok true → env.tscCompile = .error e →
      (gateImplementTest env now).passed = false) ∧
    (env.hasEslintConfig = .error e →
      (gateImplementTest env now).passed = false) ∧
    (env.hasEslintConfig = .ok true → env.eslintRun = .error e →
      (gateImplementTest env now).passed = false) ∧
    (env.hasNpmTest = .error e →
      (gateTestReview env T now).passed = false) ∧
    (env.hasNpmTest = .ok true → env.npmTest = .error e →
      (gateTestReview env T now).passed = false) ∧
    (env.hasCoverageFile = .error e →
      (gateTestReview env T now).passed = false) ∧
    (env.npmAudit = .error e →
      (gateReviewRelease env now).passed = false) ∧
    (env.hasChangelog = .error e →
      (gateReviewRelease env now).passed = false) ∧
    (env.hasCoverageFile = .ok true → env.coverageRead = .error e →
      gateTestReview env T now =
        gateTestReview { env with hasCoverageFile := .ok false } T now) := by
  refine ⟨?_, ?_, ?_, ?_, ?_, ?_, ?_, ?_, ?_, ?_, ?_⟩
  · intro h
    simp [gateDesignImplement, h]
  · intro h
    simp [gateImplementTest, h]
  · intro h1 h2
    simp [gateImplementTest, h1, h2]
  · intro h
    unfold gateImplementTest
    cases htc : env.hasTsconfig with
    | error _ => simp
    | ok b =>
        cases b with
        | false => simp [h]
        | true =>
            cases hts : env.tscCompile with
            | error _ => simp
            | ok _ => simp [h]
  · intro h1 h2
    unfold gateImplementTest
    cases htc : env.hasTsconfig with
    | error _ => simp
    | ok b =>
        cases b with
        | false => simp [h1, h2]
        | true =>
            cases hts : env.tscCompile with
            | error _ => simp
            | ok _ => simp [h1, h2]
  · intro h
    simp [gateTestReview, h]
  · intro h1 h2
    simp [gateTestReview, h1, h2]
  · intro h
    unfold gateTestReview
    cases hnt : env.hasNpmTest with
    | error _ => simp
    | ok b =>
        cases b with
        | false => simp [h]
        | true =>
            cases hrun : env.npmTest with
            | error _ => simp
            | ok _ => simp [h]
  · intro h
    simp [gateReviewRelease, h]
  · intro h
    unfold gateReviewRelease
    cases ha : env.npmAudit with
    | error _ => simp
    | ok ec =>
        by_cases hec : ec = 0
        · simp [hec, h]
        · simp [hec]
  · intro h1 h2
    unfold gateTestReview
    cases hnt : env.hasNpmTest with
    | error _ => rfl
    | ok b =>
        cases b with
        | false => simp [h1, h2]
        | true =>
            cases hrun : env.npmTest with
            | error _ => rfl
            | ok _ => simp [h1, h2]

/-- Witness for the amended C2: the design-file `find` cannot run and the
design→implement gate fails closed. -/
theorem fail_closed_amended_witness :
    designErrEnv.findDesignFiles = .error "spawn find ENOENT" ∧
    (gateDesignImplement designErrEnv 0).passed = false :=
  ⟨rfl, (fail_closed_amended designErrEnv "spawn find ENOENT" 80 0).1 rfl⟩

/-! C1. -/

/-- C1 — enforcement modes: when the gate evaluation for the requested
transition returns `passed: false` and the requested phase name is legal,
then in warning mode the track-phase request still succeeds (a confirmation
reply) and the current phase becomes the target phase, while in strict mode
the request is blocked by a raised error and the whole workflow state —
current phase, transitions log, modified files — is left unchanged
(`setPhase` never executes). -/
theorem enforcement_modes (env : GateEnv) (T : Nat) (now : Int)
    (gateAppendErr : Option String) (st : SystemState) (p ph : String)
    (hcur : st.workflow.currentPhase = some p) (hp : p ≠ "")
    (hvalid : validPhases.contains (jsToLowerCase ph) = true)
    (hfail : (validateGate env T now (p ++ "→" ++ ph)).passed = false) :
    ((trackPhaseRequest env T false gateAppendErr none now st ph).1.workflow.currentPhase =
        some ph ∧
      ∃ msg, (trackPhaseRequest env T false gateAppendErr none now st ph).2 =
        .reply msg) ∧
    ((trackPhaseRequest env T true gateAppendErr none now st ph).1.workflow =
        st.workflow ∧
      ∃ err, (trackPhaseRequest env T true gateAppendErr none now st ph).2 =
        .blocked err) := by
  have hph : ph ≠ "" := by
    intro h
    rw [h] at hvalid
    exact absurd hvalid (by decide)
  have hmem : jsToLowerCase ph ∈ validPhases := by
    simpa using hvalid
  refine ⟨⟨?_, ?_⟩, ?_, ?_⟩ <;>
    simp [trackPhaseRequest, qualityGateHook, trackPhaseTool, getCurrentPhase,
      getFilesModified, logTransition, logGateCheck, mkGateLog, setCurrentPhase,
      clearModifiedFiles, hcur, hp, hph, hvalid, hmem, hfail]

/-- Witness for C1: Scenario B — current phase "design", zero matching
design files, request to transition to "implement". -/
theorem enforcement_modes_witness :
    (designState.workflow.currentPhase = some "design" ∧
      validPhases.contains (jsToLowerCase "implement") = true ∧
      (validateGate noDesignFilesEnv 80 7 ("design" ++ "→" ++ "implement")).passed =
        false) ∧
    (((trackPhaseRequest noDesignFilesEnv 80 false none none 7 designState
          "implement").1.workflow.currentPhase = some "implement" ∧
      ∃ msg, (trackPhaseRequest noDesignFilesEnv 80 false none none 7 designState
          "implement").2 = .reply msg) ∧
      ((trackPhaseRequest noDesignFilesEnv 80 true none none 7 designState
          "implement").1.workflow = designState.workflow ∧
        ∃ err, (trackPhaseRequest noDesignFilesEnv 80 true none none 7 designState
          "implement").2 = .blocked err)) :=
  ⟨⟨rfl, by decide, by decide⟩,
    enforcement_modes noDesignFilesEnv 80 7 none designState "design" "implement"
      rfl (by decide) (by decide) (by decide)⟩

/-! C10. -/

/-- C10 — case handling at the tool surface: "IMPLEMENT" is not itself a
legal phase name but its lowercasing is, so the track-phase tool accepts it;
the argument is stored and logged verbatim — after the request the current
phase is the string "IMPLEMENT" and the appended transition's target phase is
"IMPLEMENT" — and the transition key "design→IMPLEMENT" matches no defined
gate, so the gate evaluator returns the informational no-gate pass result
and even strict mode does not block. -/
theorem case_handling_tool_surface (env : GateEnv) (T : Nat) (now : Int)
    (strict : Bool) (gateAppendErr : Option String) (st : SystemState)
    (hcur : st.workflow.currentPhase = some "design") :
    validPhases.contains "IMPLEMENT" = false ∧
    validPhases.contains (jsToLowerCase "IMPLEMENT") = true ∧
    validateGate env T now "design→IMPLEMENT" =
      { passed := true
        message := "ℹ️  No quality gate defined for transition: design→IMPLEMENT"
        transition := "design→IMPLEMENT", timestamp := now } ∧
    (trackPhaseRequest env T strict gateAppendErr none now st
        "IMPLEMENT").1.workflow.currentPhase = some "IMPLEMENT" ∧
    (∃ t, (trackPhaseRequest env T strict gateAppendErr none now st
          "IMPLEMENT").1.workflow.transitionsLog =
        st.workflow.transitionsLog ++ [t] ∧ t.toPhase = "IMPLEMENT") ∧
    ∃ msg, (trackPhaseRequest env T strict gateAppendErr none now st
        "IMPLEMENT").2 = .reply msg := by
  have hgate : validateGate env T now "design→IMPLEMENT" =
      { passed := true
        message := "ℹ️  No quality gate defined for transition: design→IMPLEMENT"
        transition := "design→IMPLEMENT", timestamp := now } := by
    unfold validateGate
    rw [if_neg (by decide), if_neg (by decide), if_neg (by decide),
      if_neg (by decide)]
    rfl
  have hmem : jsToLowerCase "IMPLEMENT" ∈ validPhases := by decide
  refine ⟨by decide, by decide, hgate, ?_, ?_, ?_⟩ <;>
    simp [trackPhaseRequest, qualityGateHook, trackPhaseTool, getCurrentPhase,
      getFilesModified, logTransition, logGateCheck, mkGateLog, setCurrentPhase,
      clearModifiedFiles, hcur, hmem, hgate]

/-- Witness for C10 from the concrete design-phase state. -/
theorem case_handling_tool_surface_witness :
    designState.workflow.currentPhase = some "design" ∧
    (validPhases.contains "IMPLEMENT" = false ∧
      validPhases.contains (jsToLowerCase "IMPLEMENT") = true ∧
      validateGate probeEnvAllOk 80 7 "design→IMPLEMENT" =
        { passed := true
          message := "ℹ️  No quality gate defined for transition: design→IMPLEMENT"
          transition := "design→IMPLEMENT", timestamp := 7 } ∧
      (trackPhaseRequest probeEnvAllOk 80 true none none 7 designState
          "IMPLEMENT").1.workflow.currentPhase = some "IMPLEMENT" ∧
      (∃ t, (trackPhaseRequest probeEnvAllOk 80 true none none 7 designState
            "IMPLEMENT").1.workflow.transitionsLog =
          designState.workflow.transitionsLog ++ [t] ∧ t.toPhase = "IMPLEMENT") ∧
      ∃ msg, (trackPhaseRequest probeEnvAllOk 80 true none none 7 designState
          "IMPLEMENT").2 = .reply msg) :=
  ⟨rfl, case_handling_tool_surface probeEnvAllOk 80 7 true none designState rfl⟩

end OpencodeSdlc
